import Mathlib

/-
Shallow embedding of the C bridge layer of srt-rs (src/srt-c/src/lib.rs):
the socket registry, the per-handle lifecycle state machine, the option
codec and the public boundary operations. The transport engine (srt-tokio /
srt-protocol) is consumed as a black box: its outcomes (validation, bind,
handshake, delivery) enter the model as explicit oracle arguments, and its
opaque objects (listener, task handles, receivers, io errors) are numeric
tokens.
-/

namespace SrtC

/-- Error codes of the error channel (errors.rs, as used by lib.rs). Only the
numeric identities are unspecified here; the bridge code manipulates the
codes purely symbolically. -/
inductive SRT_ERRNO where
  | SRT_SUCCESS
  | SRT_EINVSOCK
  | SRT_ECONNSOCK
  | SRT_EINVOP
  | SRT_ENOSERVER
  | SRT_EASYNCRCV
  | SRT_ESCLOSED
  | SRT_ENOLISTEN
  | SRT_ELARGEMSG
  | SRT_ENOCONN
  | SRT_EINVPARAM
  | SRT_EBOUNDSOCK
  | SRT_ECONNLOST
deriving DecidableEq, Repr

/-- Result of one boundary call: a success value, or the SRT_ERROR sentinel
together with the errno written into the calling thread's error slot, or a
Rust panic escaping the function (`unimplemented!` in the source aborts and
returns nothing to the caller). -/
inductive CResult (α : Type) where
  | ok (v : α)
  | err (e : SRT_ERRNO)
  | panic
deriving DecidableEq, Repr

/-- True exactly when the call ended in a panic rather than returning. -/
def CResult.isPanic {α : Type} : CResult α → Bool
  | .panic => true
  | _ => false

/-- Socket option identifiers (SRT_SOCKOPT in lib.rs, full set). -/
inductive SRT_SOCKOPT where
  | SRTO_MSS
  | SRTO_SNDSYN
  | SRTO_RCVSYN
  | SRTO_ISN
  | SRTO_FC
  | SRTO_SNDBUF
  | SRTO_RCVBUF
  | SRTO_LINGER
  | SRTO_UDP_SNDBUF
  | SRTO_UDP_RCVBUF
  | SRTO_RENDEZVOUS
  | SRTO_SNDTIMEO
  | SRTO_RCVTIMEO
  | SRTO_REUSEADDR
  | SRTO_MAXBW
  | SRTO_STATE
  | SRTO_EVENT
  | SRTO_SNDDATA
  | SRTO_RCVDATA
  | SRTO_SENDER
  | SRTO_TSBPDMODE
  | SRTO_LATENCY
  | SRTO_INPUTBW
  | SRTO_OHEADBW
  | SRTO_PASSPHRASE
  | SRTO_PBKEYLEN
  | SRTO_KMSTATE
  | SRTO_IPTTL
  | SRTO_IPTOS
  | SRTO_TLPKTDROP
  | SRTO_SNDDROPDELAY
  | SRTO_NAKREPORT
  | SRTO_VERSION
  | SRTO_PEERVERSION
  | SRTO_CONNTIMEO
  | SRTO_DRIFTTRACER
  | SRTO_MININPUTBW
  | SRTO_SNDKMSTATE
  | SRTO_RCVKMSTATE
  | SRTO_LOSSMAXTTL
  | SRTO_RCVLATENCY
  | SRTO_PEERLATENCY
  | SRTO_MINVERSION
  | SRTO_STREAMID
  | SRTO_CONGESTION
  | SRTO_MESSAGEAPI
  | SRTO_PAYLOADSIZE
  | SRTO_TRANSTYPE
  | SRTO_KMREFRESHRATE
  | SRTO_KMPREANNOUNCE
  | SRTO_ENFORCEDENCRYPTION
  | SRTO_IPV6ONLY
  | SRTO_PEERIDLETIMEO
  | SRTO_BINDTODEVICE
  | SRTO_PACKETFILTER
  | SRTO_RETRANSMITALGO
  | SRTO_E_SIZE
deriving DecidableEq, Repr

/-- Socket addresses, abstracted to an (ip, port) pair of naturals. -/
abbrev SocketAddr := Nat × Nat

/-- Opaque io::Error values of the transport crate, abstracted to tokens. -/
abbrev IoError := Nat

/-- UTF-8 byte strings (StreamId and Passphrase contents). -/
abbrev StreamId := List Nat

/-- Passphrase bytes (validated UTF-8 content). -/
abbrev Passphrase := List Nat

/-- Per-handle API options (ApiOptions in lib.rs): the blocking flags and the
accept-callback registration; the callback pointer and its opaque context are
abstracted to tokens. -/
structure ApiOptions where
  snd_syn : Bool
  rcv_syn : Bool
  listen_cb : Option Nat
  listen_cb_opaque : Nat
deriving DecidableEq, Repr

/-- Default ApiOptions (Default impl in lib.rs): both blocking flags set,
no callback, null context. -/
def ApiOptions.default : ApiOptions :=
  { snd_syn := true, rcv_syn := true, listen_cb := none, listen_cb_opaque := 0 }

/-- Live bandwidth mode of the transport options (srt-protocol
LiveBandwidthMode, the constructors used by lib.rs); rates are u64 data
rates, overheads are percents. -/
inductive LiveBandwidthMode where
  | Max (rate : Nat)
  | Input (rate : Nat) (overhead : Nat)
  | Estimated (expected : Nat) (overhead : Nat)
  | Unlimited
deriving DecidableEq, Repr

/-- Pre-connection socket options (srt-tokio SocketOptions, absent from src/);
only the fields the bridge code reads or writes are represented, with
durations carried as whole milliseconds. -/
structure SocketOptions where
  connect_local : SocketAddr
  connect_timeout_ms : Nat
  encryption_passphrase : Option Passphrase
  receiver_latency_ms : Nat
  sender_peer_latency_ms : Nat
  sender_bandwidth : LiveBandwidthMode
deriving DecidableEq, Repr

/-- Default pre-connection options (Default::default() of the transport
crate, absent from src/); the concrete defaults are immaterial to every
claim, only the record shape is used. -/
def SocketOptions.default : SocketOptions :=
  { connect_local := (0, 0)
    connect_timeout_ms := 3000
    encryption_passphrase := none
    receiver_latency_ms := 120
    sender_peer_latency_ms := 120
    sender_bandwidth := .Unlimited }

/-- Crypto key size (srt-protocol KeySize as used by lib.rs). -/
inductive KeySize where
  | Unspecified
  | Len (bytes : Nat)
deriving DecidableEq, Repr

/-- Key-exchange parameters staged on an Accepting placeholder
(srt-protocol KeySettings as used by lib.rs). -/
structure KeySettings where
  passphrase : Passphrase
  key_size : KeySize
deriving DecidableEq, Repr

/-- Read-only settings snapshot of an established transport session
(srt-protocol ConnectionSettings, the fields lib.rs reads). -/
structure ConnectionSettings where
  recv_tsbpd_latency_ms : Nat
  send_tsbpd_latency_ms : Nat
  bandwidth : LiveBandwidthMode
  stream_id : Option (List Nat)
deriving DecidableEq, Repr

/-- An established transport session object, reduced to its settings
snapshot (the behavioural part enters the model through oracles). -/
structure SrtSocket where
  settings : ConnectionSettings
deriving DecidableEq, Repr

/-- The per-handle lifecycle state (SocketData in lib.rs). Listener objects,
hand-off receivers and background task handles are opaque tokens. -/
inductive SocketData where
  | Initialized (so : SocketOptions) (sid : Option StreamId) (api : ApiOptions)
  | ConnectingNonBlocking (task : Nat) (api : ApiOptions)
  | Established (sock : SrtSocket) (api : ApiOptions)
  | Listening (listener : Nat) (incoming : Option Nat) (task : Nat) (api : ApiOptions)
  | ConnectFailed (e : IoError)
  | Accepting (key : Option KeySettings)
  | InvalidIntermediateState
  | Closed
deriving DecidableEq, Repr

/-- SocketData::api_opts of lib.rs. -/
def SocketData.api_opts : SocketData → Option ApiOptions
  | .Initialized _ _ opts => some opts
  | .ConnectingNonBlocking _ opts => some opts
  | .Established _ opts => some opts
  | .Listening _ _ _ opts => some opts
  | _ => none

/-- SocketData::sock_opts of lib.rs. -/
def SocketData.sock_opts : SocketData → Option SocketOptions
  | .Initialized opts _ _ => some opts
  | _ => none

/-- SocketData::conn_settings of lib.rs. -/
def SocketData.conn_settings : SocketData → Option ConnectionSettings
  | .Established sock _ => some sock.settings
  | _ => none

/-- Write access to the ApiOptions of a state, mirroring the first component
of SocketData::opts_mut: defined exactly on the states where opts_mut
returns Some for the api options. -/
def SocketData.withApi (sd : SocketData) (f : ApiOptions → ApiOptions) : Option SocketData :=
  match sd with
  | .Initialized so sid a => some (.Initialized so sid (f a))
  | .ConnectingNonBlocking t a => some (.ConnectingNonBlocking t (f a))
  | .Established s a => some (.Established s (f a))
  | .Listening l i t a => some (.Listening l i t (f a))
  | _ => none

/-- Write access to the SocketOptions of a state, mirroring the second
component of SocketData::opts_mut (Some only in Initialized). -/
def SocketData.withSockOpts (sd : SocketData) (f : SocketOptions → SocketOptions) :
    Option SocketData :=
  match sd with
  | .Initialized so sid a => some (.Initialized (f so) sid a)
  | _ => none

/-- Little-endian bytes-to-natural decoding of the raw option buffer. -/
def leBytesToNat : List Nat → Nat
  | [] => 0
  | b :: rest => b % 256 + 256 * leBytesToNat rest

/-- Reinterpretation of a natural as a w-bit two-complement signed machine
integer (the value a typed read of the raw buffer produces). -/
def wrapSigned (w : Nat) (n : Nat) : Int :=
  let m := n % 2 ^ w
  if m < 2 ^ (w - 1) then (m : Int) else (m : Int) - ((2 ^ w : Nat) : Int)

/-- extract_int of lib.rs: reads a c_int from the buffer exactly when the
declared length is 4. -/
def extract_int (val : Option (List Nat)) (len : Int) : Option Int :=
  if len = 4 then val.map (fun b => wrapSigned 32 (leBytesToNat (b.take 4))) else none

/-- extract_i64 of lib.rs: reads an i64 exactly when the declared length
is 8. -/
def extract_i64 (val : Option (List Nat)) (len : Int) : Option Int :=
  if len = 8 then val.map (fun b => wrapSigned 64 (leBytesToNat (b.take 8))) else none

/-- extract_bool of lib.rs: a c_int read mapped to a flag; 0 is false and
every nonzero value is treated as true (with a warning for values other
than 1). -/
def extract_bool (val : Option (List Nat)) (len : Int) : Option Bool :=
  (extract_int val len).map (fun i => if i = 0 then false else true)

/-- Continuation-byte test of the UTF-8 grammar. -/
def utf8Cont (b : Nat) : Bool := 0x80 ≤ b && b ≤ 0xBF

/-- Validity of a byte string under String::from_utf8 (well-formed UTF-8,
rejecting overlong forms, surrogates and values beyond U+10FFFF). -/
def utf8Valid : List Nat → Bool
  | [] => true
  | b :: rest =>
    if b ≤ 0x7F then utf8Valid rest
    else if 0xC2 ≤ b && b ≤ 0xDF then
      match rest with
      | c :: r2 => utf8Cont c && utf8Valid r2
      | [] => false
    else if b = 0xE0 then
      match rest with
      | c :: d :: r2 => (0xA0 ≤ c && c ≤ 0xBF) && utf8Cont d && utf8Valid r2
      | _ => false
    else if (0xE1 ≤ b && b ≤ 0xEC) || b = 0xEE || b = 0xEF then
      match rest with
      | c :: d :: r2 => utf8Cont c && utf8Cont d && utf8Valid r2
      | _ => false
    else if b = 0xED then
      match rest with
      | c :: d :: r2 => (0x80 ≤ c && c ≤ 0x9F) && utf8Cont d && utf8Valid r2
      | _ => false
    else if b = 0xF0 then
      match rest with
      | c :: d :: e :: r2 => (0x90 ≤ c && c ≤ 0xBF) && utf8Cont d && utf8Cont e && utf8Valid r2
      | _ => false
    else if 0xF1 ≤ b && b ≤ 0xF3 then
      match rest with
      | c :: d :: e :: r2 => utf8Cont c && utf8Cont d && utf8Cont e && utf8Valid r2
      | _ => false
    else if b = 0xF4 then
      match rest with
      | c :: d :: e :: r2 => (0x80 ≤ c && c ≤ 0x8F) && utf8Cont d && utf8Cont e && utf8Valid r2
      | _ => false
    else false

/-- extract_str of lib.rs: reads len bytes from the buffer and decodes them
as UTF-8, yielding none on a null buffer or invalid encoding. -/
def extract_str (val : Option (List Nat)) (len : Int) : Option (List Nat) :=
  match val with
  | some b =>
    let s := b.take len.toNat
    if utf8Valid s then some s else none
  | none => none

/-- Modelled from the spec: Passphrase::try_from of the transport crate
(absent from src/); the option-table comment in lib.rs states the
passphrase must be 10..79 characters. -/
def Passphrase.tryFrom (b : List Nat) : Option Passphrase :=
  if 10 ≤ b.length ∧ b.length ≤ 79 then some b else none

/-- Modelled from the spec: StreamId::try_from of the transport crate
(absent from src/); the stream identifier is a bounded UTF-8 string (the
protocol caps it at 512 bytes). -/
def StreamId.tryFrom (b : List Nat) : Option StreamId :=
  if b.length ≤ 512 then some b else none

/-- u64::try_from on a c_int value: fails on negatives. -/
def u64TryFrom (i : Int) : Option Nat :=
  if i < 0 then none else some i.toNat

/-- Cast `as u64` of an i64 value (two-complement wraparound). -/
def asU64 (i : Int) : Nat := (i % ((2 ^ 64 : Nat) : Int)).toNat

/-- Cast `as c_int` of an unsigned millisecond count (truncating
two-complement reinterpretation of the low 32 bits). -/
def asCInt (n : Nat) : Int := wrapSigned 32 n

/-- Cast `as i64` of a u64 data rate. -/
def asI64 (n : Nat) : Int := wrapSigned 64 n

/-- The process-wide socket registry (the SOCKETS map), as an association
list from handle to session cell contents. -/
abbrev Registry := List (Int × SocketData)

/-- Map lookup (get of the BTreeMap behind get_sock). -/
def Registry.lookup : Registry → Int → Option SocketData
  | [], _ => none
  | p :: rest, h => if p.1 = h then some p.2 else Registry.lookup rest h

/-- Writing the session cell back through its shared reference after an
operation mutated it under the per-cell lock. -/
def Registry.store : Registry → Int → SocketData → Registry
  | [], _, _ => []
  | p :: rest, h, v => if p.1 = h then (h, v) :: rest else p :: Registry.store rest h v

/-- Map removal (remove of the BTreeMap, as done by srt_close). -/
def Registry.erase : Registry → Int → Registry
  | [], _ => []
  | p :: rest, h => if p.1 = h then Registry.erase rest h else p :: Registry.erase rest h

/-- insert_socket of lib.rs: allocates the next handle from the atomic
counter and inserts the cell; returns the new handle, the new table and the
advanced counter. -/
def insert_socket (reg : Registry) (next_sockid : Int) (data : SocketData) :
    Int × Registry × Int :=
  (next_sockid, (next_sockid, data) :: reg, next_sockid + 1)

/-- srt_create_socket of lib.rs: registry insert of a default Initialized
cell. -/
def srt_create_socket (reg : Registry) (next_sockid : Int) : Int × Registry × Int :=
  insert_socket reg next_sockid (.Initialized SocketOptions.default none ApiOptions.default)

/-- get_sock of lib.rs. -/
def get_sock (reg : Registry) (sock : Int) : Option SocketData :=
  Registry.lookup reg sock

/-- Body of srt_bind once the address argument has been parsed: legal only
from Initialized, where it overwrites the pre-connection local address. -/
def srt_bind_cell (sd : SocketData) (name : SocketAddr) : CResult Unit × SocketData :=
  match sd with
  | .Initialized so sid api =>
    (.ok (), .Initialized { so with connect_local := name } sid api)
  | _ => (.err .SRT_ECONNSOCK, sd)

/-- srt_bind of lib.rs: address parsing, registry lookup, then the cell
transition under the lock; a none address stands for a null or unparsable
sockaddr. -/
def srt_bind (reg : Registry) (sock : Int) (name : Option SocketAddr) :
    CResult Unit × Registry :=
  match name with
  | none => (.err .SRT_EINVPARAM, reg)
  | some addr =>
    match get_sock reg sock with
    | none => (.err .SRT_EINVSOCK, reg)
    | some sd =>
      let r := srt_bind_cell sd addr
      (r.1, Registry.store reg sock r.2)

/-- Outcome of the transport-crate work performed by srt_listen: option
validation may reject, SrtListener::bind may fail, or both succeed yielding
the listener object, the hand-off receiver and the spawned accept-loop
task. -/
inductive ListenOutcome where
  | validateErr (e : IoError)
  | bindErr (e : IoError)
  | bound (listener : Nat) (receiver : Nat) (task : Nat)
deriving DecidableEq, Repr

/-- Body of srt_listen under the per-cell lock, translated directly from
lib.rs: the state is swapped for InvalidIntermediateState, and on the
validation-failure and bind-failure paths the function returns without
installing anything else, leaving the placeholder in the cell. -/
def srt_listen_cell (sd : SocketData) (out : ListenOutcome) : CResult Unit × SocketData :=
  let swapped := SocketData.InvalidIntermediateState
  match sd with
  | .Initialized _so _sid initial_opts =>
    match out with
    | .validateErr _ => (.err .SRT_EINVOP, swapped)
    | .bindErr _ => (.err .SRT_EINVOP, swapped)
    | .bound listener receiver task =>
      (.ok (), .Listening listener (some receiver) task initial_opts)
  | other => (.err .SRT_ECONNSOCK, other)

/-- srt_listen of lib.rs at registry level (the backlog argument is
ignored by the source). -/
def srt_listen (reg : Registry) (sock : Int) (out : ListenOutcome) :
    CResult Unit × Registry :=
  match get_sock reg sock with
  | none => (.err .SRT_EINVSOCK, reg)
  | some sd =>
    let r := srt_listen_cell sd out
    (r.1, Registry.store reg sock r.2)

/-- Outcome of a handshake attempt (SrtSocket::builder().call of the
transport crate). -/
inductive ConnectOutcome where
  | accepted (sock : SrtSocket)
  | failed (e : IoError)
deriving DecidableEq, Repr

/-- Result of srt_connect on one cell: the boundary return, the new cell
state, and the stream-identifier argument handed to the handshake call
when one was issued (some arg), for both the synchronous call and the
spawned background call. -/
structure ConnectResult where
  ret : CResult Unit
  state : SocketData
  callArg : Option (Option StreamId)
deriving DecidableEq, Repr

/-- Body of srt_connect under the per-cell lock, translated from lib.rs:
blocking mode waits on the handshake and passes the stored stream
identifier, restoring Initialized on failure; non-blocking mode spawns the
background call with a none stream identifier and installs
ConnectingNonBlocking immediately. -/
def srt_connect_cell (sd : SocketData) (out : ConnectOutcome) (taskId : Nat) : ConnectResult :=
  match sd with
  | .Initialized so streamid options =>
    if options.rcv_syn then
      match out with
      | .accepted sock => ⟨.ok (), .Established sock options, some streamid⟩
      | .failed _ => ⟨.err .SRT_ENOSERVER, .Initialized so streamid options, some streamid⟩
    else
      ⟨.ok (), .ConnectingNonBlocking taskId options, some none⟩
  | other => ⟨.err .SRT_ECONNSOCK, other, none⟩

/-- srt_connect of lib.rs at registry level. -/
def srt_connect (reg : Registry) (sock : Int) (name : Option SocketAddr)
    (out : ConnectOutcome) (taskId : Nat) : CResult Unit × Registry :=
  match name with
  | none => (.err .SRT_EINVPARAM, reg)
  | some _ =>
    match get_sock reg sock with
    | none => (.err .SRT_EINVSOCK, reg)
    | some sd =>
      let r := srt_connect_cell sd out taskId
      (r.ret, Registry.store reg sock r.state)

/-- The write the background connect task performs into the cell when it
completes (the closure spawned by the non-blocking branch of srt_connect). -/
def connect_bg_complete (options : ApiOptions) (res : ConnectOutcome) : SocketData :=
  match res with
  | .accepted s => .Established s options
  | .failed e => .ConnectFailed e

/-- What the wait on the hand-off channel produced: the bounded non-blocking
poll expired, the channel yielded the next established inbound handle, or
the channel's send side is gone (listener closed). -/
inductive AcceptWait where
  | timeoutExpired
  | received (newSock : Int) (remote : SocketAddr)
  | channelClosed
deriving DecidableEq, Repr

/-- Body of srt_accept for one cell, translated from lib.rs: the hand-off
receiver is taken out of the Listening state for the wait; a call finding
it absent fails at once with SRT_EINVOP; the receiver is re-installed only
on the success path, the timeout and channel-closed paths return with the
receiver still absent. -/
def srt_accept_cell (sd : SocketData) (wait : AcceptWait) : CResult Int × SocketData :=
  match sd with
  | .Listening listener incoming task opts =>
    match incoming with
    | none => (.err .SRT_EINVOP, .Listening listener none task opts)
    | some receiver =>
      match wait with
      | .timeoutExpired => (.err .SRT_EASYNCRCV, .Listening listener none task opts)
      | .channelClosed => (.err .SRT_ESCLOSED, .Listening listener none task opts)
      | .received newSock _remote =>
        (.ok newSock, .Listening listener (some receiver) task opts)
  | other => (.err .SRT_ENOLISTEN, other)

/-- srt_accept of lib.rs at registry level; addrGiven and lenGiven model
the nullness of the peer-address out parameters, checked before the
registry lookup. -/
def srt_accept (reg : Registry) (sock : Int) (addrGiven lenGiven : Bool)
    (wait : AcceptWait) : CResult Int × Registry :=
  match addrGiven, lenGiven with
  | true, false => (.err .SRT_EINVPARAM, reg)
  | _, _ =>
    match get_sock reg sock with
    | none => (.err .SRT_EINVSOCK, reg)
    | some sd =>
      let r := srt_accept_cell sd wait
      (r.1, Registry.store reg sock r.2)

/-- Body of srt_sendmsg2 for one cell, translated from lib.rs: legal only
from Established; the payload is handed to the session with try_send
regardless of the blocking flags (blocking mode is left unimplemented by
the source), reporting SRT_ELARGEMSG when the queuing is rejected and the
full length on success. -/
def srt_sendmsg2_cell (sd : SocketData) (len : Int) (try_send_accepted : Bool) :
    CResult Int × SocketData :=
  match sd with
  | .Established sock opts =>
    if try_send_accepted then (.ok len, .Established sock opts)
    else (.err .SRT_ELARGEMSG, .Established sock opts)
  | other => (.err .SRT_ENOCONN, other)

/-- srt_sendmsg2 of lib.rs at registry level (srt_send delegates here). -/
def srt_sendmsg2 (reg : Registry) (sock : Int) (len : Int) (try_send_accepted : Bool) :
    CResult Int × Registry :=
  match get_sock reg sock with
  | none => (.err .SRT_EINVSOCK, reg)
  | some sd =>
    let r := srt_sendmsg2_cell sd len try_send_accepted
    (r.1, Registry.store reg sock r.2)

/-- What the wait for the next deliverable unit produced: the bounded
non-blocking poll expired, a data unit arrived, the stream yielded an
error, or the stream ended. -/
inductive RecvOutcome where
  | timeoutExpired
  | data (payload : List Nat)
  | recvError (e : IoError)
  | streamEnd
deriving DecidableEq, Repr

/-- Body of srt_recv for one cell, translated from lib.rs: legal only from
Established; a delivered unit is copied into the caller buffer truncating
to min(buffer length, unit length) and that count is returned; errors and
stream end report SRT_ECONNLOST, the non-blocking timeout reports
SRT_EASYNCRCV. The second component is the caller buffer after the call. -/
def srt_recv_cell (sd : SocketData) (buf : List Nat) (out : RecvOutcome) :
    CResult Int × List Nat × SocketData :=
  match sd with
  | .Established sock opts =>
    match out with
    | .timeoutExpired => (.err .SRT_EASYNCRCV, buf, .Established sock opts)
    | .recvError _ => (.err .SRT_ECONNLOST, buf, .Established sock opts)
    | .streamEnd => (.err .SRT_ECONNLOST, buf, .Established sock opts)
    | .data recvd =>
      let bytes_to_write := min buf.length recvd.length
      (.ok (bytes_to_write : Int),
        recvd.take bytes_to_write ++ buf.drop bytes_to_write,
        .Established sock opts)
  | other => (.err .SRT_ENOCONN, buf, other)

/-- srt_recv of lib.rs at registry level (srt_recvmsg delegates here). -/
def srt_recv (reg : Registry) (sock : Int) (buf : List Nat) (out : RecvOutcome) :
    CResult Int × List Nat × Registry :=
  match get_sock reg sock with
  | none => (.err .SRT_EINVSOCK, buf, reg)
  | some sd =>
    let r := srt_recv_cell sd buf out
    (r.1, r.2.1, Registry.store reg sock r.2.2)

/-- Outcome of close_and_finish on an established session. -/
inductive CloseOutcome where
  | closed
  | closeErr (e : IoError)
deriving DecidableEq, Repr

/-- Body of srt_close for one cell, translated from lib.rs: Established
asks the session to close (a failure is reported with SRT_EINVOP but the
transition to Closed still happens); Listening stops the listener and
joins the accept loop; every other state needs no teardown and keeps its
variant. -/
def srt_close_cell (sd : SocketData) (out : CloseOutcome) : CResult Unit × SocketData :=
  match sd with
  | .Established _ _ =>
    match out with
    | .closed => (.ok (), .Closed)
    | .closeErr _ => (.err .SRT_EINVOP, .Closed)
  | .Listening _ _ _ _ => (.ok (), .Closed)
  | other => (.ok (), other)

/-- srt_close of lib.rs at registry level: after the per-cell teardown the
handle is removed from the registry unconditionally, so a reported close
failure does not prevent removal. -/
def srt_close (reg : Registry) (socknum : Int) (out : CloseOutcome) :
    CResult Unit × Registry :=
  match get_sock reg socknum with
  | none => (.err .SRT_EINVSOCK, reg)
  | some sd =>
    let r := srt_close_cell sd out
    (r.1, Registry.erase (Registry.store reg socknum r.2) socknum)

/-- Body of srt_setsockflag for one cell, translated arm by arm from
lib.rs: the Accepting placeholder accepts only the passphrase (and a
warned-but-accepted receiver latency); the stream identifier bypasses the
generic dispatch; the generic dispatch resolves each identifier against
the api options and the pre-connection options per opts_mut, and every
uncovered combination hits the Rust unimplemented macro, which panics. -/
def srt_setsockflag_cell (sd : SocketData) (opt : SRT_SOCKOPT)
    (optval : Option (List Nat)) (optlen : Int) : CResult Unit × SocketData :=
  match sd with
  | .Accepting params =>
    match opt with
    | .SRTO_PASSPHRASE =>
      match (extract_str optval optlen).bind Passphrase.tryFrom with
      | some p =>
        (.ok (), .Accepting (some { passphrase := p
                                    key_size := (params.map (fun q => q.key_size)).getD .Unspecified }))
      | none => (.err .SRT_EINVPARAM, .Accepting params)
    | .SRTO_RCVLATENCY => (.ok (), .Accepting params)
    | _ => (.panic, .Accepting params)
  | _ =>
    if opt = .SRTO_STREAMID then
      match sd with
      | .Initialized so _ api =>
        match (extract_str optval optlen).bind StreamId.tryFrom with
        | some sid => (.ok (), .Initialized so (some sid) api)
        | none => (.err .SRT_EINVPARAM, sd)
      | _ => (.err .SRT_ECONNSOCK, sd)
    else
      match opt with
      | .SRTO_SENDER => (.ok (), sd)
      | .SRTO_RCVSYN =>
        match sd.api_opts with
        | some _ =>
          match extract_bool optval optlen with
          | some b => (.ok (), (sd.withApi (fun o => { o with rcv_syn := b })).getD sd)
          | none => (.err .SRT_EINVPARAM, sd)
        | none => (.panic, sd)
      | .SRTO_SNDSYN =>
        match sd.api_opts with
        | some _ =>
          match extract_bool optval optlen with
          | some b => (.ok (), (sd.withApi (fun o => { o with snd_syn := b })).getD sd)
          | none => (.err .SRT_EINVPARAM, sd)
        | none => (.panic, sd)
      | .SRTO_CONNTIMEO =>
        match sd.sock_opts with
        | some _ =>
          match (extract_int optval optlen).bind u64TryFrom with
          | some t =>
            (.ok (), (sd.withSockOpts (fun o => { o with connect_timeout_ms := t })).getD sd)
          | none => (.err .SRT_EINVPARAM, sd)
        | none => (.panic, sd)
      | .SRTO_TSBPDMODE =>
        match extract_bool optval optlen with
        | some true => (.ok (), sd)
        | some false => (.err .SRT_EINVPARAM, sd)
        | none => (.err .SRT_EINVPARAM, sd)
      | .SRTO_PASSPHRASE =>
        match sd.sock_opts with
        | some _ =>
          match (extract_str optval optlen).bind Passphrase.tryFrom with
          | some p =>
            (.ok (),
              (sd.withSockOpts (fun o => { o with encryption_passphrase := some p })).getD sd)
          | none => (.err .SRT_EINVPARAM, sd)
        | none => (.panic, sd)
      | .SRTO_RCVLATENCY =>
        match sd.sock_opts with
        | some _ =>
          match (extract_int optval optlen).bind u64TryFrom with
          | some t =>
            (.ok (), (sd.withSockOpts (fun o => { o with receiver_latency_ms := t })).getD sd)
          | none => (.err .SRT_EINVPARAM, sd)
        | none => (.panic, sd)
      | .SRTO_PEERLATENCY =>
        match sd.sock_opts with
        | some _ =>
          match (extract_int optval optlen).bind u64TryFrom with
          | some t =>
            (.ok (), (sd.withSockOpts (fun o => { o with sender_peer_latency_ms := t })).getD sd)
          | none => (.err .SRT_EINVPARAM, sd)
        | none => (.panic, sd)
      | .SRTO_MININPUTBW =>
        match sd.sock_opts with
        | some _ =>
          match extract_i64 optval optlen with
          | some i =>
            (.ok (),
              (sd.withSockOpts (fun o =>
                let overhead :=
                  match o.sender_bandwidth with
                  | .Estimated _ ovh => ovh
                  | _ => 25
                { o with sender_bandwidth := LiveBandwidthMode.Estimated (asU64 i) overhead })).getD sd)
          | none => (.err .SRT_EINVPARAM, sd)
        | none => (.panic, sd)
      | _ => (.panic, sd)

/-- srt_setsockflag of lib.rs at registry level (srt_setsockopt delegates
here). -/
def srt_setsockflag (reg : Registry) (sock : Int) (opt : SRT_SOCKOPT)
    (optval : Option (List Nat)) (optlen : Int) : CResult Unit × Registry :=
  match get_sock reg sock with
  | none => (.err .SRT_EINVSOCK, reg)
  | some sd =>
    let r := srt_setsockflag_cell sd opt optval optlen
    (r.1, Registry.store reg sock r.2)

/-- The typed value computed by the get dispatch of srt_getsockflag (the
local Val enum of lib.rs). -/
inductive GetVal where
  | flag (b : Bool)
  | int (i : Int)
  | int64 (i : Int)
  | str (s : List Nat)
deriving DecidableEq, Repr

/-- Result of the get dispatch: a typed value, an explicit errno, or the
panic of the Rust unimplemented macro on an uncovered combination. -/
inductive GetDispatch where
  | val (v : GetVal)
  | errno (e : SRT_ERRNO)
  | panic
deriving DecidableEq, Repr

/-- Rate projection used by the SRTO_MININPUTBW get arm of lib.rs. -/
def bwRate : LiveBandwidthMode → Int
  | .Max rate => asI64 rate
  | .Input rate _ => asI64 rate
  | .Estimated expected _ => asI64 expected
  | .Unlimited => 0

/-- Value dispatch of srt_getsockflag, translated arm by arm from lib.rs:
the stream identifier is special-cased on Initialized and Established, and
the generic arms resolve via api_opts, sock_opts and conn_settings in the
source's precedence order. -/
def getsockflag_dispatch (sd : SocketData) (opt : SRT_SOCKOPT) : GetDispatch :=
  if opt = .SRTO_STREAMID then
    match sd with
    | .Initialized _ sid _ => .val (.str (sid.getD []))
    | .Established sock _ => .val (.str (sock.settings.stream_id.getD []))
    | _ => .errno .SRT_EBOUNDSOCK
  else
    match opt, sd.api_opts, sd.sock_opts, sd.conn_settings with
    | .SRTO_RCVSYN, some opts, _, _ => .val (.flag opts.rcv_syn)
    | .SRTO_SNDSYN, some opts, _, _ => .val (.flag opts.snd_syn)
    | .SRTO_CONNTIMEO, _, some opts, _ => .val (.int (asCInt opts.connect_timeout_ms))
    | .SRTO_RCVLATENCY, _, some opts, _ => .val (.int (asCInt opts.receiver_latency_ms))
    | .SRTO_RCVLATENCY, _, _, some cs => .val (.int (asCInt cs.recv_tsbpd_latency_ms))
    | .SRTO_PEERLATENCY, _, some opts, _ => .val (.int (asCInt opts.sender_peer_latency_ms))
    | .SRTO_PEERLATENCY, _, _, some cs => .val (.int (asCInt cs.send_tsbpd_latency_ms))
    | .SRTO_MININPUTBW, _, some opts, _ => .val (.int64 (bwRate opts.sender_bandwidth))
    | .SRTO_MININPUTBW, _, _, some cs => .val (.int64 (bwRate cs.bandwidth))
    | _, _, _, _ => .panic

/-- What was stored through the caller's value pointer by a successful
get. -/
inductive BufWrite where
  | int (i : Int)
  | int64 (i : Int)
  | bytes (b : List Nat)
deriving DecidableEq, Repr

/-- Result of srt_getsockflag: the boundary return, the write performed
into the caller buffer (none when nothing was written), and the final
value of the in/out length parameter. -/
structure GetResult where
  ret : CResult Unit
  written : Option BufWrite
  optlen_out : Int
deriving DecidableEq, Repr

/-- Body of srt_getsockflag once the value and length pointers are known
non-null, translated from lib.rs: the dispatch value is marshalled into
the caller buffer under the per-kind capacity check (booleans demand a
length of exactly 4; ints at least 4, writing 4 back; 64-bit ints at least
8, writing 8 back; strings at least their length plus one for the null
terminator, writing the used length back). -/
def srt_getsockflag_cell (sd : SocketData) (opt : SRT_SOCKOPT) (optlen : Int) : GetResult :=
  match getsockflag_dispatch sd opt with
  | .errno e => ⟨.err e, none, optlen⟩
  | .panic => ⟨.panic, none, optlen⟩
  | .val v =>
    match v with
    | .flag b =>
      if optlen ≠ 4 then ⟨.err .SRT_EINVPARAM, none, optlen⟩
      else ⟨.ok (), some (.int (if b then 1 else 0)), optlen⟩
    | .int i =>
      if optlen < 4 then ⟨.err .SRT_EINVPARAM, none, optlen⟩
      else ⟨.ok (), some (.int i), 4⟩
    | .int64 i =>
      if optlen < 8 then ⟨.err .SRT_EINVPARAM, none, optlen⟩
      else ⟨.ok (), some (.int64 i), 8⟩
    | .str s =>
      if optlen < ((s.length : Int) + 1) then ⟨.err .SRT_EINVPARAM, none, optlen⟩
      else ⟨.ok (), some (.bytes (s ++ [0])), (s.length : Int)⟩

/-- srt_getsockflag of lib.rs at registry level (srt_getsockopt delegates
here): the null checks on the value and length pointers precede the
registry lookup. -/
def srt_getsockflag (reg : Registry) (sock : Int) (opt : SRT_SOCKOPT)
    (optvalGiven : Bool) (optlen : Option Int) : GetResult × Registry :=
  match optvalGiven, optlen with
  | true, some len =>
    match get_sock reg sock with
    | none => (⟨.err .SRT_EINVSOCK, none, len⟩, reg)
    | some sd => (srt_getsockflag_cell sd opt len, reg)
  | _, _ => (⟨.err .SRT_EINVPARAM, none, optlen.getD 0⟩, reg)

/-- The option identifiers covered by an arm of the srt_setsockflag
dispatch: the stream-identifier special case, the Accepting-state arms and
the generic arms (guards included, so a covered identifier may still be
rejected or panic in a phase without the matching record). -/
def setFlagCovered : SRT_SOCKOPT → Bool
  | .SRTO_STREAMID => true
  | .SRTO_SENDER => true
  | .SRTO_RCVSYN => true
  | .SRTO_SNDSYN => true
  | .SRTO_CONNTIMEO => true
  | .SRTO_TSBPDMODE => true
  | .SRTO_PASSPHRASE => true
  | .SRTO_RCVLATENCY => true
  | .SRTO_PEERLATENCY => true
  | .SRTO_MININPUTBW => true
  | _ => false

/-- The option identifiers covered by an arm of the srt_getsockflag
dispatch. -/
def getFlagCovered : SRT_SOCKOPT → Bool
  | .SRTO_STREAMID => true
  | .SRTO_RCVSYN => true
  | .SRTO_SNDSYN => true
  | .SRTO_CONNTIMEO => true
  | .SRTO_RCVLATENCY => true
  | .SRTO_PEERLATENCY => true
  | .SRTO_MININPUTBW => true
  | _ => false

/-- Capacity check srt_getsockflag applies per value kind: exactly 4 bytes
for booleans, at least 4 for ints, at least 8 for 64-bit ints, at least
the string length plus one (for the null terminator) for strings. -/
def capOk : GetVal → Int → Bool
  | .flag _, len => decide (len = 4)
  | .int _, len => decide (4 ≤ len)
  | .int64 _, len => decide (8 ≤ len)
  | .str s, len => decide (((s.length : Int) + 1) ≤ len)

/-- The write a successful get performs per value kind: booleans are
stored as a c_int 1 or 0, strings with a trailing null terminator. -/
def marshalWrite : GetVal → BufWrite
  | .flag b => .int (if b then 1 else 0)
  | .int i => .int i
  | .int64 i => .int64 i
  | .str s => .bytes (s ++ [0])

/-- The final value of the in/out length parameter after a successful get:
untouched for booleans, the value width for ints, the used string length
for strings. -/
def marshalLenOut : GetVal → Int → Int
  | .flag _, len => len
  | .int _, _ => 4
  | .int64 _, _ => 8
  | .str s, _ => (s.length : Int)

/-- Looking a handle up after erasing it from the registry finds nothing. -/
theorem Registry.lookup_erase (reg : Registry) (h : Int) :
    Registry.lookup (Registry.erase reg h) h = none := by
  induction reg with
  | nil => rfl
  | cons p rest ih =>
    by_cases hp : p.1 = h
    · simp [Registry.erase, hp, ih]
    · simp [Registry.erase, Registry.lookup, hp, ih]

/-- C1: the claim that a returning public operation never leaves the
transient placeholder in the handle cell fails on srt_listen: when option
validation rejects the accumulated options, or when binding the listening
transport object fails, the call returns its error with the cell still
holding InvalidIntermediateState (the early returns skip the restore). -/
theorem srt_listen_failure_leaves_invalid_intermediate :
    srt_listen_cell (.Initialized SocketOptions.default none ApiOptions.default)
        (.validateErr 0)
      = (.err .SRT_EINVOP, .InvalidIntermediateState) ∧
    srt_listen_cell (.Initialized SocketOptions.default none ApiOptions.default)
        (.bindErr 0)
      = (.err .SRT_EINVOP, .InvalidIntermediateState) :=
  ⟨rfl, rfl⟩

/-- C2: the claim that a failed listen restores the original Initialized
variant fails: on a bind failure (and likewise a validation failure) the
cell ends holding InvalidIntermediateState, which is not the Initialized
variant the handle started from. -/
theorem srt_listen_bind_failure_not_restored :
    (srt_listen_cell (.Initialized SocketOptions.default none ApiOptions.default)
        (.bindErr 7)).2 = .InvalidIntermediateState ∧
    SocketData.InvalidIntermediateState
      ≠ SocketData.Initialized SocketOptions.default none ApiOptions.default :=
  ⟨rfl, by decide⟩

/-- C3: srt_accept does take the hand-off receiver out of the Listening
state and a second call finding it absent fails immediately with
SRT_EINVOP, but the claim that the receiver is put back on every
completion path fails: after the non-blocking would-block timeout and
after the listener-closed outcome the state still holds no receiver, so a
subsequent accept fails with the accept-in-progress error forever. -/
theorem srt_accept_timeout_does_not_restore_receiver :
    srt_accept_cell
        (.Listening 1 (some 2) 3 { ApiOptions.default with rcv_syn := false })
        .timeoutExpired
      = (.err .SRT_EASYNCRCV,
         .Listening 1 none 3 { ApiOptions.default with rcv_syn := false }) ∧
    srt_accept_cell (.Listening 1 (some 2) 3 ApiOptions.default) .channelClosed
      = (.err .SRT_ESCLOSED, .Listening 1 none 3 ApiOptions.default) ∧
    srt_accept_cell
        (.Listening 1 none 3 { ApiOptions.default with rcv_syn := false })
        .timeoutExpired
      = (.err .SRT_EINVOP,
         .Listening 1 none 3 { ApiOptions.default with rcv_syn := false }) :=
  ⟨rfl, rfl, rfl⟩

/-- C4: the claim that send mirrors the blocking split governed by
SRTO_SNDSYN fails: srt_sendmsg2 behaves identically for both values of the
snd_syn flag (the source leaves blocking send mode unimplemented), and in
particular with snd_syn set it still returns the message-too-large error
immediately when try_send rejects the payload instead of waiting. -/
theorem srt_sendmsg2_ignores_snd_syn (sock : SrtSocket) (a : ApiOptions)
    (len : Int) (acc : Bool) :
    (srt_sendmsg2_cell (.Established sock { a with snd_syn := true }) len acc).1
      = (srt_sendmsg2_cell (.Established sock { a with snd_syn := false }) len acc).1 ∧
    (srt_sendmsg2_cell (.Established sock { a with snd_syn := true }) len false).1
      = .err .SRT_ELARGEMSG := by
  constructor
  · cases acc <;> rfl
  · rfl

/-- C4 witness at a concrete session and payload length. -/
theorem srt_sendmsg2_ignores_snd_syn_witness :
    (srt_sendmsg2_cell
        (.Established ⟨⟨120, 120, .Unlimited, none⟩⟩
          { ApiOptions.default with snd_syn := true }) 5 false).1
      = (srt_sendmsg2_cell
        (.Established ⟨⟨120, 120, .Unlimited, none⟩⟩
          { ApiOptions.default with snd_syn := false }) 5 false).1 :=
  (srt_sendmsg2_ignores_snd_syn ⟨⟨120, 120, .Unlimited, none⟩⟩ ApiOptions.default 5 false).1

/-- C5: receiving into a caller buffer smaller than the delivered unit does
not fail: the call copies exactly min(buffer length, unit length) bytes,
here the full buffer length, returns that count, and leaves the session
Established. -/
theorem srt_recv_truncates_to_min (sock : SrtSocket) (a : ApiOptions)
    (buf recvd : List Nat) (h : buf.length < recvd.length) :
    srt_recv_cell (.Established sock a) buf (.data recvd)
      = (.ok (buf.length : Int), recvd.take buf.length, .Established sock a) := by
  have hmin : min buf.length recvd.length = buf.length := Nat.min_eq_left (Nat.le_of_lt h)
  simp [srt_recv_cell, hmin]

/-- C5 witness: a two-byte buffer receiving a four-byte unit. -/
theorem srt_recv_truncates_to_min_witness :
    [0, 0].length < [10, 11, 12, 13].length ∧
    srt_recv_cell (.Established ⟨⟨120, 120, .Unlimited, none⟩⟩ ApiOptions.default)
        [0, 0] (.data [10, 11, 12, 13])
      = (.ok 2, [10, 11], .Established ⟨⟨120, 120, .Unlimited, none⟩⟩ ApiOptions.default) :=
  ⟨by decide,
   srt_recv_truncates_to_min ⟨⟨120, 120, .Unlimited, none⟩⟩ ApiOptions.default
     [0, 0] [10, 11, 12, 13] (by decide)⟩

/-- C6 counterexample: setting the uncovered identifier SRTO_MSS on an
Initialized handle does not deliver an explicit error result to the
caller: the call ends in the panic of the Rust unimplemented macro, so no
errno-carrying error return is produced. -/
theorem srt_setsockflag_unknown_option_panics_not_error :
    (srt_setsockflag_cell (.Initialized SocketOptions.default none ApiOptions.default)
        .SRTO_MSS (some [0, 0, 0, 0]) 4).1 = .panic ∧
    ¬ ∃ e, (srt_setsockflag_cell (.Initialized SocketOptions.default none ApiOptions.default)
        .SRTO_MSS (some [0, 0, 0, 0]) 4).1 = .err e := by
  refine ⟨rfl, ?_⟩
  rintro ⟨e, he⟩
  simp [srt_setsockflag_cell] at he

/-- C6 amended: for every option identifier not covered by the respective
dispatch table, in every lifecycle state, set-option and get-option never
silently succeed and never return at all: both fault through the Rust
unimplemented macro, a panic that aborts at the foreign boundary instead
of delivering an explicit error result. -/
theorem set_get_uncovered_option_always_panics (opt : SRT_SOCKOPT) (sd : SocketData)
    (optval : Option (List Nat)) (optlen : Int) (optlen2 : Int)
    (hset : setFlagCovered opt = false) (hget : getFlagCovered opt = false) :
    (srt_setsockflag_cell sd opt optval optlen).1 = .panic ∧
    (srt_getsockflag_cell sd opt optlen2).ret = .panic := by
  constructor
  · cases opt <;> first
      | exact absurd hset (by decide)
      | (cases sd <;> rfl)
  · cases opt <;> first
      | exact absurd hget (by decide)
      | (cases sd <;> rfl)

/-- C6 witness: SRTO_MSS on a Closed handle panics on both paths. -/
theorem set_get_uncovered_option_always_panics_witness :
    setFlagCovered .SRTO_MSS = false ∧ getFlagCovered .SRTO_MSS = false ∧
    ((srt_setsockflag_cell .Closed .SRTO_MSS none 0).1 = .panic ∧
     (srt_getsockflag_cell .Closed .SRTO_MSS 0).ret = .panic) :=
  ⟨by decide, by decide,
   set_get_uncovered_option_always_panics .SRTO_MSS .Closed none 0 0
     (by decide) (by decide)⟩

/-- C7 counterexample: reading the boolean option SRTO_RCVSYN with a
declared capacity of 8 bytes fails with the invalid-parameter error even
though 8 bytes are sufficient for the 4-byte value written, so a
sufficient declared capacity does not imply the call succeeds. -/
theorem srt_getsockflag_flag_rejects_larger_capacity :
    srt_getsockflag_cell (.Initialized SocketOptions.default none ApiOptions.default)
        .SRTO_RCVSYN 8
      = ⟨.err .SRT_EINVPARAM, none, 8⟩ ∧ (4 : Int) ≤ 8 :=
  ⟨rfl, by decide⟩

/-- C7 amended: whenever the get dispatch yields a value, the call writes
it into the caller buffer exactly when the per-kind capacity check passes
(capacity exactly 4 for booleans, at least the value width for int kinds,
at least length plus one for strings) and fails with the
invalid-parameter error otherwise; on success strings are written with a
trailing null terminator and the actual length used is written back. -/
theorem srt_getsockflag_marshalling_spec (sd : SocketData) (opt : SRT_SOCKOPT)
    (len : Int) (v : GetVal) (hdisp : getsockflag_dispatch sd opt = .val v) :
    (capOk v len = true →
      srt_getsockflag_cell sd opt len
        = ⟨.ok (), some (marshalWrite v), marshalLenOut v len⟩) ∧
    (capOk v len = false →
      srt_getsockflag_cell sd opt len = ⟨.err .SRT_EINVPARAM, none, len⟩) := by
  unfold srt_getsockflag_cell
  rw [hdisp]
  cases v with
  | flag b =>
    constructor <;> intro hc <;> simp [capOk] at hc <;>
      simp [marshalWrite, marshalLenOut, hc]
  | int i =>
    constructor <;> intro hc <;> simp [capOk] at hc <;>
      simp [marshalWrite, marshalLenOut] <;> omega
  | int64 i =>
    constructor <;> intro hc <;> simp [capOk] at hc <;>
      simp [marshalWrite, marshalLenOut] <;> omega
  | str s =>
    constructor <;> intro hc <;> simp [capOk] at hc <;>
      simp [marshalWrite, marshalLenOut] <;> omega

/-- C7 witness: the boolean SRTO_RCVSYN read with capacity exactly 4
succeeds and stores 1. -/
theorem srt_getsockflag_marshalling_spec_witness :
    getsockflag_dispatch (.Initialized SocketOptions.default none ApiOptions.default)
        .SRTO_RCVSYN = .val (.flag true) ∧
    ((capOk (.flag true) 4 = true →
      srt_getsockflag_cell (.Initialized SocketOptions.default none ApiOptions.default)
          .SRTO_RCVSYN 4
        = ⟨.ok (), some (marshalWrite (.flag true)), marshalLenOut (.flag true) 4⟩) ∧
     (capOk (.flag true) 4 = false →
      srt_getsockflag_cell (.Initialized SocketOptions.default none ApiOptions.default)
          .SRTO_RCVSYN 4
        = ⟨.err .SRT_EINVPARAM, none, 4⟩)) :=
  ⟨rfl,
   srt_getsockflag_marshalling_spec
     (.Initialized SocketOptions.default none ApiOptions.default) .SRTO_RCVSYN 4
     (.flag true) rfl⟩

/-- C8: a blocking connect from Initialized whose handshake fails reports
the no-server-response error and restores the exact original Initialized
variant (same options, stream identifier and api options), and a
successful handshake installs Established carrying the session. -/
theorem srt_connect_blocking_restores_initialized_on_failure (so : SocketOptions)
    (sid : Option StreamId) (a : ApiOptions) (e : IoError) (sock : SrtSocket)
    (taskId : Nat) (h : a.rcv_syn = true) :
    srt_connect_cell (.Initialized so sid a) (.failed e) taskId
      = ⟨.err .SRT_ENOSERVER, .Initialized so sid a, some sid⟩ ∧
    srt_connect_cell (.Initialized so sid a) (.accepted sock) taskId
      = ⟨.ok (), .Established sock a, some sid⟩ := by
  constructor <;> simp [srt_connect_cell, h]

/-- C8 witness at a concrete Initialized handle. -/
theorem srt_connect_blocking_restores_initialized_on_failure_witness :
    ApiOptions.default.rcv_syn = true ∧
    srt_connect_cell (.Initialized SocketOptions.default (some [97]) ApiOptions.default)
        (.failed 3) 0
      = ⟨.err .SRT_ENOSERVER,
         .Initialized SocketOptions.default (some [97]) ApiOptions.default, some (some [97])⟩ :=
  ⟨by decide,
   (srt_connect_blocking_restores_initialized_on_failure SocketOptions.default
     (some [97]) ApiOptions.default 3 ⟨⟨120, 120, .Unlimited, none⟩⟩ 0 (by decide)).1⟩

/-- C10: the stream identifier handed to the handshake call by srt_connect
depends on the blocking flag: the blocking path passes the identifier
stored in the Initialized state, while the non-blocking background call is
always issued with no stream identifier, discarding the stored one. -/
theorem srt_connect_streamid_depends_on_blocking_flag (so : SocketOptions)
    (sid : Option StreamId) (a : ApiOptions) (out : ConnectOutcome) (taskId : Nat) :
    (srt_connect_cell (.Initialized so sid a) out taskId).callArg
      = some (if a.rcv_syn then sid else none) := by
  cases h : a.rcv_syn <;> cases out <;> simp [srt_connect_cell, h]

/-- C10 witness: with a stored stream identifier and blocking mode off the
background call is issued with none. -/
theorem srt_connect_streamid_depends_on_blocking_flag_witness :
    (srt_connect_cell
        (.Initialized SocketOptions.default (some [97, 98])
          { ApiOptions.default with rcv_syn := false })
        (.failed 0) 9).callArg = some none := by
  simpa using srt_connect_streamid_depends_on_blocking_flag SocketOptions.default
    (some [97, 98]) { ApiOptions.default with rcv_syn := false } (.failed 0) 9

/-- C9: after close returns on a registered handle, from any lifecycle
state and regardless of the transport teardown outcome, the handle is gone
from the registry and every subsequent operation on it (bind, listen,
connect, accept, send, receive, set and get option, close) fails with the
invalid-handle error, leaving the registry untouched. -/
theorem srt_close_removes_handle_and_invalidates (reg : Registry) (h : Int)
    (out : CloseOutcome) (addr : SocketAddr) (lout : ListenOutcome)
    (cout : ConnectOutcome) (taskId : Nat) (wait : AcceptWait) (len : Int)
    (acc : Bool) (buf : List Nat) (rout : RecvOutcome) (opt : SRT_SOCKOPT)
    (optval : Option (List Nat)) (optlen : Int) (optlen2 : Int)
    (out2 : CloseOutcome) (hin : (get_sock reg h).isSome = true) :
    get_sock (srt_close reg h out).2 h = none ∧
    srt_bind (srt_close reg h out).2 h (some addr)
      = (.err .SRT_EINVSOCK, (srt_close reg h out).2) ∧
    srt_listen (srt_close reg h out).2 h lout
      = (.err .SRT_EINVSOCK, (srt_close reg h out).2) ∧
    srt_connect (srt_close reg h out).2 h (some addr) cout taskId
      = (.err .SRT_EINVSOCK, (srt_close reg h out).2) ∧
    srt_accept (srt_close reg h out).2 h false false wait
      = (.err .SRT_EINVSOCK, (srt_close reg h out).2) ∧
    srt_sendmsg2 (srt_close reg h out).2 h len acc
      = (.err .SRT_EINVSOCK, (srt_close reg h out).2) ∧
    srt_recv (srt_close reg h out).2 h buf rout
      = (.err .SRT_EINVSOCK, buf, (srt_close reg h out).2) ∧
    srt_setsockflag (srt_close reg h out).2 h opt optval optlen
      = (.err .SRT_EINVSOCK, (srt_close reg h out).2) ∧
    srt_getsockflag (srt_close reg h out).2 h opt true (some optlen2)
      = (⟨.err .SRT_EINVSOCK, none, optlen2⟩, (srt_close reg h out).2) ∧
    srt_close (srt_close reg h out).2 h out2
      = (.err .SRT_EINVSOCK, (srt_close reg h out).2) := by
  obtain ⟨sd, hsd⟩ := Option.isSome_iff_exists.mp hin
  have hreg2 : (srt_close reg h out).2
      = Registry.erase (Registry.store reg h (srt_close_cell sd out).2) h := by
    simp [srt_close, hsd]
  have hnone : get_sock (srt_close reg h out).2 h = none := by
    rw [hreg2]
    exact Registry.lookup_erase _ h
  generalize (srt_close reg h out).2 = reg2 at hnone ⊢
  refine ⟨hnone, ?_, ?_, ?_, ?_, ?_, ?_, ?_, ?_, ?_⟩ <;>
    simp [srt_bind, srt_listen, srt_connect, srt_accept, srt_sendmsg2, srt_recv,
      srt_setsockflag, srt_getsockflag, srt_close, hnone]

/-- C9 witness: a one-entry registry whose only handle is closed; every
subsequent operation on that handle fails with the invalid-handle error. -/
theorem srt_close_removes_handle_and_invalidates_witness :
    (get_sock [((1 : Int), SocketData.Closed)] 1).isSome = true ∧
    (get_sock (srt_close [((1 : Int), SocketData.Closed)] 1 .closed).2 1 = none ∧
     srt_bind (srt_close [((1 : Int), SocketData.Closed)] 1 .closed).2 1 (some (0, 0))
       = (.err .SRT_EINVSOCK, (srt_close [((1 : Int), SocketData.Closed)] 1 .closed).2) ∧
     srt_listen (srt_close [((1 : Int), SocketData.Closed)] 1 .closed).2 1 (.validateErr 0)
       = (.err .SRT_EINVSOCK, (srt_close [((1 : Int), SocketData.Closed)] 1 .closed).2) ∧
     srt_connect (srt_close [((1 : Int), SocketData.Closed)] 1 .closed).2 1 (some (0, 0))
         (.failed 0) 0
       = (.err .SRT_EINVSOCK, (srt_close [((1 : Int), SocketData.Closed)] 1 .closed).2) ∧
     srt_accept (srt_close [((1 : Int), SocketData.Closed)] 1 .closed).2 1 false false
         .timeoutExpired
       = (.err .SRT_EINVSOCK, (srt_close [((1 : Int), SocketData.Closed)] 1 .closed).2) ∧
     srt_sendmsg2 (srt_close [((1 : Int), SocketData.Closed)] 1 .closed).2 1 0 true
       = (.err .SRT_EINVSOCK, (srt_close [((1 : Int), SocketData.Closed)] 1 .closed).2) ∧
     srt_recv (srt_close [((1 : Int), SocketData.Closed)] 1 .closed).2 1 [] .streamEnd
       = (.err .SRT_EINVSOCK, [], (srt_close [((1 : Int), SocketData.Closed)] 1 .closed).2) ∧
     srt_setsockflag (srt_close [((1 : Int), SocketData.Closed)] 1 .closed).2 1 .SRTO_MSS
         none 0
       = (.err .SRT_EINVSOCK, (srt_close [((1 : Int), SocketData.Closed)] 1 .closed).2) ∧
     srt_getsockflag (srt_close [((1 : Int), SocketData.Closed)] 1 .closed).2 1 .SRTO_MSS
         true (some 0)
       = (⟨.err .SRT_EINVSOCK, none, 0⟩,
          (srt_close [((1 : Int), SocketData.Closed)] 1 .closed).2) ∧
     srt_close (srt_close [((1 : Int), SocketData.Closed)] 1 .closed).2 1 .closed
       = (.err .SRT_EINVSOCK, (srt_close [((1 : Int), SocketData.Closed)] 1 .closed).2)) :=
  ⟨by decide,
   srt_close_removes_handle_and_invalidates [((1 : Int), SocketData.Closed)] 1 .closed
     (0, 0) (.validateErr 0) (.failed 0) 0 .timeoutExpired 0 true [] .streamEnd
     .SRTO_MSS none 0 0 .closed (by decide)⟩

end SrtC
